import Mathlib

/-!
Shallow embedding of `src/app.py`, a single-file Flask service that accepts an
uploaded document, extracts its text, translates it through an external
chat-model client, and returns the result as a PDF or plain-text attachment.

Modelling conventions:
* Python strings are Lean `String`s; Python `str` methods used by the source
  (`endswith`, `split`, `strip` truthiness, `len`) are modelled by
  structurally recursive functions on `List Char` so that every definition
  evaluates inside the kernel.
* The local file system is a partial map from paths to decoded file contents
  (`Fs`).  Reading a `.txt` file in Python text mode applies universal-newline
  decoding, which is modelled explicitly by `universalNewlines`.
* External-library outcomes that the source guards with `try/except`
  (the upload save, `reportlab` `Paragraph` construction, `doc.build`, the
  fallback `canvas`, and the text-file write) are oracles collected in `Env`,
  as is the process-level chat handle produced at startup
  (`chat = None` when the Vertex AI client failed to come up).
* Python exceptions are `Except.error msg` carrying `str(e)`; Flask responses
  are a status code plus either a plain message or a file attachment.
* Each request is modelled against a fresh output directory: the fixed-name
  output artifacts (`translated_output.pdf` / `.txt`) do not exist before the
  request, so `send_file` raises exactly when the request produced no file.
* The handler also returns the list of side effects it performed
  (`Event`): the upload save, the extraction read, and the model call.
-/

deriving instance DecidableEq for Except

namespace App

/-! ## Python string primitives -/

/-- Characters stripped by Python `str.strip()` / split by `str.split()`
(the ASCII whitespace set `' \t\n\x0b\x0c\r'`). -/
def pythonWhitespace (c : Char) : Bool :=
  c = ' ' || c = '\t' || c = '\n' || c = '\x0b' || c = '\x0c' || c = '\r'

/-- Model of Python `s.endswith(post)`. -/
def pyEndswith (s post : String) : Bool :=
  (decide (post.data.length ≤ s.data.length)) &&
    (List.drop (s.data.length - post.data.length) s.data == post.data)

/-- Split a character list at every separator satisfying `p`, keeping empty
segments (the behaviour of Python `str.split(sep)` for an explicit `sep`).
`cur` is the current segment accumulated in reverse. -/
def splitPredAux (p : Char → Bool) : List Char → List Char → List (List Char)
  | [], cur => [cur.reverse]
  | c :: rest, cur =>
    if p c then cur.reverse :: splitPredAux p rest []
    else splitPredAux p rest (c :: cur)

/-- Model of Python `s.split(sep)` for a one-character separator, as used by
`text.split('\n')` in `TranslatedPDF.add_text_block`. -/
def pySplitChar (s : String) (sep : Char) : List String :=
  (splitPredAux (fun c => c = sep) s.data []).map (fun l => String.mk l)

/-- Truthiness of Python `para.strip()`: true exactly when the string contains
a character that is not Python whitespace. -/
def stripTruthy (s : String) : Bool :=
  s.data.any (fun c => !(pythonWhitespace c))

/-- Whitespace-delimited words of a string, as Python `str.split()` with no
argument produces (empty segments dropped). -/
def pythonWords (s : String) : List String :=
  ((splitPredAux pythonWhitespace s.data []).filter (fun l => l ≠ [])).map
    (fun l => String.mk l)

/-- Universal-newline decoding applied by Python text-mode reads with the
default `newline=None`: `"\r\n"` and a lone `"\r"` both become `"\n"`. -/
def universalNewlinesAux : List Char → List Char
  | [] => []
  | [c] => if c = '\r' then ['\n'] else [c]
  | c :: c2 :: rest =>
    if c = '\r' then
      if c2 = '\n' then '\n' :: universalNewlinesAux rest
      else '\n' :: universalNewlinesAux (c2 :: rest)
    else c :: universalNewlinesAux (c2 :: rest)

/-- Universal-newline decoding on strings (see `universalNewlinesAux`). -/
def universalNewlines (s : String) : String :=
  String.mk (universalNewlinesAux s.data)

/-! ## Model of `textwrap.wrap` -/

/-- Break the character list of a single word into pieces of at most `w`
characters (`w ≥ 1`); fuel-driven so that the kernel can evaluate it.
Models `textwrap`'s breaking of words longer than the wrap width
(`break_long_words=True`, the default). -/
def chunksAux (w : Nat) : Nat → List Char → List (List Char)
  | _, [] => []
  | 0, _ :: _ => []
  | fuel + 1, c :: cs => (c :: cs.take (w - 1)) :: chunksAux w fuel (cs.drop (w - 1))

/-- Break one word into pieces of at most `w` characters. -/
def breakLongWord (w : Nat) (word : String) : List String :=
  (chunksAux w word.data.length word.data).map (fun l => String.mk l)

/-- Greedily pack words into lines of at most `w` characters, one space
between adjacent words; `cur` is the line under construction. -/
def fillLines (w : Nat) : String → List String → List String
  | cur, [] => [cur]
  | cur, word :: rest =>
    if cur.length + 1 + word.length ≤ w then fillLines w (cur ++ " " ++ word) rest
    else cur :: fillLines w word rest

/-- Model of Python `textwrap.wrap(text, width=width)` with default options:
collapse the text into whitespace-separated words, break words longer than
`width`, and greedily fill lines of at most `width` characters. -/
def textwrap_wrap (text : String) (width : Nat) : List String :=
  match (pythonWords text).flatMap (breakLongWord width) with
  | [] => []
  | w0 :: rest => fillLines width w0 rest

/-! ## Data model of the service -/

/-- Decoded content of a file on disk: bytes that decode as UTF-8 text, bytes
that PyMuPDF opens as a PDF with the given page texts, or anything else. -/
inductive FileData where
  | txt (content : String)
  | pdf (pages : List String)
  | other
deriving DecidableEq

/-- A file system: a map from paths to file contents. -/
abbrev Fs : Type := String → Option FileData

/-- Write one file (the effect of `uploaded_file.save` or of a successful
text-mode write on Linux, where `os.linesep = "\n"` keeps the string as is). -/
def Fs.write (fs : Fs) (path : String) (d : FileData) : Fs :=
  fun q => if q = path then some d else fs q

/-- The empty file system. -/
def fsEmpty : Fs := fun _ => none

/-- A reportlab flowable appended to `TranslatedPDF.story`: a `Paragraph`
with the custom normal style, or a `Spacer`. -/
inductive Flowable where
  | para (text : String)
  | spacer (w h : Nat)
deriving DecidableEq

/-- Content of the PDF file on disk after `TranslatedPDF.save`: the document
built from the story, or the generic placeholder written by
`_create_fallback_pdf`. -/
inductive PdfContent where
  | built (story : List Flowable)
  | placeholder
deriving DecidableEq

/-- Content of the file streamed back by `send_file`. -/
inductive FileContent where
  | pdf (c : PdfContent)
  | text (s : String)
deriving DecidableEq

/-- Body of an HTTP response: a plain string (Flask `return "...", code`) or
a file attachment with its `download_name`. -/
inductive Body where
  | message (s : String)
  | attachment (content : FileContent) (downloadName : String)
deriving DecidableEq

/-- An HTTP response: status code and body. -/
structure Response where
  status : Nat
  body : Body
deriving DecidableEq

/-- Side effects the handler performs, in order: saving the upload to disk,
reading it back for extraction, and calling the external model. -/
inductive Event where
  | save (path : String) (d : FileData)
  | extract (path : String)
  | modelCall (prompt : String)
deriving DecidableEq

/-- The uploaded file of a multipart request: declared filename plus data. -/
structure UploadedFile where
  filename : String
  data : FileData
deriving DecidableEq

/-- A `POST /translate` request: the `file` part (absent when `'file' not in
request.files`) and the `language` / `format` form fields (`none` = absent). -/
structure Request where
  file : Option UploadedFile
  language : Option String
  format : Option String
deriving DecidableEq

/-- The process-level chat handle: `chat.send_message` followed by
`response.text`, as a function from the prompt to the reply text or to the
message of the exception the call raised. -/
abbrev Chat : Type := String → Except String String

/-- Oracles for every external-library outcome the source guards, plus the
per-process chat handle and the file system visible to the request. -/
structure Env where
  fs0 : Fs
  secure_filename : String → String
  saveResult : Option String
  chat : Option Chat
  paragraphRaises : String → Bool
  buildRaises : List Flowable → Bool
  canvasRaises : Bool
  txtWriteOk : Bool

/-! ## Embedded source functions -/

/-- Upload directory (`UPLOAD_FOLDER = "uploads"`). -/
def UPLOAD_FOLDER : String := "uploads"

/-- Model of `os.path.join` for the one relative join the source performs. -/
def os_path_join (a b : String) : String := a ++ "/" ++ b

/-- Embedding of `extract_text` (src/app.py lines 133-141): dispatch on the
path suffix, read `.txt` files in UTF-8 text mode (with universal-newline
decoding), join the PyMuPDF page texts of `.pdf` files with `"\n"`, and raise
`ValueError("Unsupported file type")` for any other suffix. -/
def extract_text (fs : Fs) (file_path : String) : Except String String :=
  if pyEndswith file_path ".txt" then
    match fs file_path with
    | some (FileData.txt s) => Except.ok (universalNewlines s)
    | some _ => Except.error "UnicodeDecodeError: invalid start byte"
    | none => Except.error ("No such file or directory: " ++ file_path)
  else if pyEndswith file_path ".pdf" then
    match fs file_path with
    | some (FileData.pdf pages) => Except.ok (String.intercalate "\n" pages)
    | some _ => Except.error ("cannot open document: " ++ file_path)
    | none => Except.error ("No such file or directory: " ++ file_path)
  else Except.error "Unsupported file type"

/-- The prompt template of `translate_text` (src/app.py lines 148-155),
rendered exactly as the f-string produces it. -/
def promptFor (text target_language : String) : String :=
  "\n    Detect the language of the following content and translate it into " ++
    target_language ++
    ".\n    Only return the translated version without commentary.\n        \n    ```\n    " ++
    text ++ "\n    ```\n    "

/-- Embedding of `translate_text` (src/app.py lines 144-157): raise
`RuntimeError("Gemini not initialized")` when the process-level chat handle is
`None`, otherwise send the rendered prompt and return the reply text. -/
def translate_text (chat : Option Chat) (text target_language : String) :
    Except String String :=
  match chat with
  | none => Except.error "Gemini not initialized"
  | some send => send (promptFor text target_language)

/-- Variant of `translate_text` that also reports the model-call side effect
performed (none when the handle is `None`, since the call raises before
anything is sent). -/
def translate_text_ev (chat : Option Chat) (text target_language : String) :
    Except String String × List Event :=
  match chat with
  | none => (Except.error "Gemini not initialized", [])
  | some send =>
    (send (promptFor text target_language), [Event.modelCall (promptFor text target_language)])

/-- Embedding of `create_text_file` (src/app.py lines 111-119): attempt the
UTF-8 write, swallow any exception, and report success as a boolean. -/
def create_text_file (env : Env) (text filename : String) : Bool :=
  env.txtWriteOk

/-- State of a `TranslatedPDF` document: target filename and the story of
flowables accumulated so far (`__init__` starts with an empty story). -/
structure TranslatedPDF where
  filename : String
  story : List Flowable
deriving DecidableEq

/-- Embedding of `TranslatedPDF.__init__`. -/
def TranslatedPDF.init (filename : String) : TranslatedPDF :=
  { filename := filename, story := [] }

/-- Flowables produced for the wrapped lines of one long paragraph, stopping
with `true` at the first line whose `Paragraph` construction raises (the
`try` of `add_text_block` covers the whole loop, so earlier appends stay). -/
def addWrapped (env : Env) : List String → List Flowable × Bool
  | [] => ([], false)
  | line :: rest =>
    if env.paragraphRaises line then ([], true)
    else
      match addWrapped env rest with
      | (fs, b) => (Flowable.para line :: fs, b)

/-- Flowables produced by the paragraph loop of `add_text_block`
(src/app.py lines 52-65): skip-empty check via `para.strip()` truthiness,
wrap paragraphs longer than 100 characters with `textwrap.wrap(para, width=80)`,
append a `Spacer(1, 6)` for blank paragraphs; the boolean records whether some
`Paragraph` construction raised, aborting the rest of the loop. -/
def addLines (env : Env) : List String → List Flowable × Bool
  | [] => ([], false)
  | para :: rest =>
    if stripTruthy para then
      if 100 < para.length then
        match addWrapped env (textwrap_wrap para 80) with
        | (fs, true) => (fs, true)
        | (fs, false) =>
          match addLines env rest with
          | (fs2, b) => (fs ++ fs2, b)
      else
        if env.paragraphRaises para then ([], true)
        else
          match addLines env rest with
          | (fs2, b) => (Flowable.para para :: fs2, b)
    else
      match addLines env rest with
      | (fs2, b) => (Flowable.spacer 1 6 :: fs2, b)

/-- Text of the fallback paragraph appended by the `except` clause of
`add_text_block` (src/app.py line 69). -/
def fallbackText : String :=
  "Translation completed. Text encoding issues prevented proper formatting."

/-- Embedding of `TranslatedPDF.add_text_block` (src/app.py lines 46-71):
split the text on newlines and run the paragraph loop; if any `Paragraph`
construction raises, the `except` clause appends one fallback paragraph (a
fixed ASCII literal whose own construction does not raise) after whatever the
loop had already appended. -/
def TranslatedPDF.add_text_block (env : Env) (pdf : TranslatedPDF) (text : String) :
    TranslatedPDF :=
  match addLines env (pySplitChar text '\n') with
  | (fs, false) => { pdf with story := pdf.story ++ fs }
  | (fs, true) => { pdf with story := pdf.story ++ fs ++ [Flowable.para fallbackText] }

/-- Embedding of `TranslatedPDF.save` together with `_create_fallback_pdf`
(src/app.py lines 73-108): try `doc.build`; on failure try the placeholder
canvas; on failure of that too, only log.  The result is the content of the
PDF file on disk afterwards (`none` when nothing was written, the document
layout having failed before the buffered canvas output was flushed).
`save` itself never raises. -/
def TranslatedPDF.save (env : Env) (pdf : TranslatedPDF) : Option PdfContent :=
  if env.buildRaises pdf.story then
    if env.canvasRaises then none
    else some PdfContent.placeholder
  else some (PdfContent.built pdf.story)

/-! ## The `POST /translate` handler -/

/-- Message of the `FileNotFoundError` that `send_file` raises when the PDF
branch produced no file at the fixed output path. -/
def sendFilePdfMissing : String :=
  "[Errno 2] No such file or directory: 'translated_output.pdf'"

/-- The `format == 'txt'` branch of the handler (src/app.py lines 190-197):
write the translated text and stream it back, or return a 500 when
`create_text_file` reports failure. -/
def txtStage (env : Env) (translated target_language : String) : Response :=
  if create_text_file env translated "translated_output.txt" then
    { status := 200
      body := Body.attachment (FileContent.text translated)
        ("translated_" ++ target_language ++ ".txt") }
  else { status := 500, body := Body.message "Error creating text file" }

/-- The PDF branch of the handler (src/app.py lines 198-215): build the
document and stream it back; when `send_file` raises because no PDF was
written, the `except pdf_error` clause falls back to a text file carrying the
translated text, and to a 500 if even that write fails. -/
def pdfStage (env : Env) (translated target_language : String) : Response :=
  match TranslatedPDF.save env
      (TranslatedPDF.add_text_block env (TranslatedPDF.init "translated_output.pdf")
        translated) with
  | some content =>
    { status := 200
      body := Body.attachment (FileContent.pdf content)
        ("translated_" ++ target_language ++ ".pdf") }
  | none =>
    if create_text_file env translated "translated_output.txt" then
      { status := 200
        body := Body.attachment (FileContent.text translated)
          ("translated_" ++ target_language ++ ".txt") }
    else
      { status := 500
        body := Body.message ("Error creating output file: " ++ sendFilePdfMissing) }

/-- Body of the `try` block of the `translate` handler (src/app.py lines
166-215): the validation returns are `Except.ok` responses, every uncaught
pipeline exception is an `Except.error` with its message, and the second
component lists the side effects performed before returning or raising. -/
def translateBody (env : Env) (req : Request) : Except String Response × List Event :=
  match req.file with
  | none => (Except.ok { status := 400, body := Body.message "No file uploaded" }, [])
  | some uploaded_file =>
    if uploaded_file.filename = "" then
      (Except.ok { status := 400, body := Body.message "Empty filename" }, [])
    else
      match req.language with
      | none =>
        (Except.ok { status := 400, body := Body.message "No target language specified" }, [])
      | some target_language =>
        if target_language = "" then
          (Except.ok { status := 400, body := Body.message "No target language specified" }, [])
        else
          let output_format := req.format.getD "pdf"
          let file_path := os_path_join UPLOAD_FOLDER (env.secure_filename uploaded_file.filename)
          match env.saveResult with
          | some msg => (Except.error msg, [])
          | none =>
            let fs1 := Fs.write env.fs0 file_path uploaded_file.data
            let ev1 := [Event.save file_path uploaded_file.data, Event.extract file_path]
            match extract_text fs1 file_path with
            | Except.error e => (Except.error e, ev1)
            | Except.ok original_text =>
              match translate_text_ev env.chat original_text target_language with
              | (Except.error e, evM) => (Except.error e, ev1 ++ evM)
              | (Except.ok translated, evM) =>
                if output_format = "txt" then
                  (Except.ok (txtStage env translated target_language), ev1 ++ evM)
                else
                  (Except.ok (pdfStage env translated target_language), ev1 ++ evM)

/-- Embedding of the `translate` handler (src/app.py lines 164-219): run the
`try` body; the boundary `except` turns any exception into a 500 response
whose body interpolates the exception message after `"Error: "`. -/
def translate (env : Env) (req : Request) : Response × List Event :=
  match translateBody env req with
  | (Except.ok resp, ev) => (resp, ev)
  | (Except.error e, ev) =>
    ({ status := 500, body := Body.message ("Error: " ++ e) }, ev)

/-- Layout of a single paragraph of the split text, as the specification
describes it: blank paragraphs become spacers, paragraphs longer than 100
characters are wrapped at the fixed width 80, the rest become one paragraph
flowable each. -/
def layoutParagraph (para : String) : List Flowable :=
  if stripTruthy para then
    if 100 < para.length then (textwrap_wrap para 80).map Flowable.para
    else [Flowable.para para]
  else [Flowable.spacer 1 6]

/-! ## Concrete fixtures used to instantiate the theorems -/

/-- Environment in which every external operation succeeds and the model
replies `"bonjour"` to every prompt. -/
def envHappy : Env :=
  { fs0 := fsEmpty
    secure_filename := fun s => s
    saveResult := none
    chat := some (fun _p => Except.ok "bonjour")
    paragraphRaises := fun _ => false
    buildRaises := fun _ => false
    canvasRaises := false
    txtWriteOk := true }

/-- Environment in which `doc.build` raises but the placeholder canvas works. -/
def envBuildFail : Env :=
  { envHappy with buildRaises := fun _ => true }

/-- Environment in which `doc.build` and the placeholder canvas both raise. -/
def envTotalPdfFail : Env :=
  { envHappy with buildRaises := fun _ => true, canvasRaises := true }

/-- Environment in which the external model client failed to come up at
process start. -/
def envNoChat : Env :=
  { envHappy with chat := none }

/-- An uploaded plain-text file. -/
def ufDoc : UploadedFile := { filename := "doc.txt", data := FileData.txt "hello" }

/-- A valid request asking for text output. -/
def reqTxt : Request :=
  { file := some ufDoc, language := some "French", format := some "txt" }

/-- A valid request with no `format` field (the PDF default). -/
def reqPdf : Request :=
  { file := some ufDoc, language := some "French", format := none }

/-- A request with a file but no `language` field. -/
def reqNoLang : Request :=
  { file := some ufDoc, language := none, format := none }

/-! ## Helper lemmas -/

/-- Universal-newline decoding is the identity on strings without `'\r'`. -/
theorem universalNewlinesAux_of_no_cr : ∀ l : List Char, '\r' ∉ l →
    universalNewlinesAux l = l
  | [], _ => rfl
  | [c], h => by
    have hc : ¬(c = '\r') := by
      intro e
      exact h (by simp [e])
    simp [universalNewlinesAux, hc]
  | c :: c2 :: rest, h => by
    have hc : ¬(c = '\r') := by
      intro e
      exact h (by simp [e])
    have h2 : '\r' ∉ c2 :: rest := by
      intro e
      exact h (List.mem_cons_of_mem c e)
    simp only [universalNewlinesAux, if_neg hc]
    rw [universalNewlinesAux_of_no_cr (c2 :: rest) h2]

/-- String version of `universalNewlinesAux_of_no_cr`. -/
theorem universalNewlines_of_no_cr (s : String) (h : '\r' ∉ s.data) :
    universalNewlines s = s := by
  cases s with
  | mk l => simp [universalNewlines, universalNewlinesAux_of_no_cr l h]

/-- Every piece produced by `chunksAux` has at most `w` characters. -/
theorem chunksAux_length_le (w : Nat) (hw : 1 ≤ w) :
    ∀ (fuel : Nat) (cs : List Char), ∀ l ∈ chunksAux w fuel cs, l.length ≤ w
  | _, [] => by intro l hl; simp [chunksAux] at hl
  | 0, _ :: _ => by intro l hl; simp [chunksAux] at hl
  | fuel + 1, c :: cs => by
    intro l hl
    simp only [chunksAux, List.mem_cons] at hl
    rcases hl with rfl | hl
    · have : (List.take (w - 1) cs).length ≤ w - 1 := by
        rw [List.length_take]
        exact Nat.min_le_left _ _
      simp only [List.length_cons]
      omega
    · exact chunksAux_length_le w hw fuel (cs.drop (w - 1)) l hl

/-- Every piece of a broken word has at most `w` characters. -/
theorem breakLongWord_length_le (w : Nat) (hw : 1 ≤ w) (word : String) :
    ∀ l ∈ breakLongWord w word, l.length ≤ w := by
  intro l hl
  simp only [breakLongWord, List.mem_map] at hl
  rcases hl with ⟨cs, hcs, rfl⟩
  exact chunksAux_length_le w hw _ _ cs hcs

/-- Greedy filling keeps every line within the width, provided the line under
construction and every word already fit. -/
theorem fillLines_length_le (w : Nat) :
    ∀ (words : List String) (cur : String), cur.length ≤ w →
      (∀ x ∈ words, x.length ≤ w) → ∀ l ∈ fillLines w cur words, l.length ≤ w
  | [], cur, hc, _ => by
    intro l hl
    simp only [fillLines, List.mem_singleton] at hl
    exact hl ▸ hc
  | word :: rest, cur, hc, hws => by
    intro l hl
    simp only [fillLines] at hl
    by_cases hfit : cur.length + 1 + word.length ≤ w
    · rw [if_pos hfit] at hl
      refine fillLines_length_le w rest (cur ++ " " ++ word) ?_ ?_ l hl
      · simp only [String.length_append]
        have : (" " : String).length = 1 := rfl
        omega
      · intro x hx
        exact hws x (List.mem_cons_of_mem _ hx)
    · rw [if_neg hfit] at hl
      rcases List.mem_cons.mp hl with rfl | hl
      · exact hc
      · refine fillLines_length_le w rest word ?_ ?_ l hl
        · exact hws word (List.mem_cons_self _ _)
        · intro x hx
          exact hws x (List.mem_cons_of_mem _ hx)

/-- Every line of the wrapped output has at most `width` characters. -/
theorem textwrap_wrap_length_le (text : String) (width : Nat) (hw : 1 ≤ width) :
    ∀ l ∈ textwrap_wrap text width, l.length ≤ width := by
  intro l hl
  have hpieces : ∀ x ∈ (pythonWords text).flatMap (breakLongWord width), x.length ≤ width := by
    intro x hx
    rcases List.mem_flatMap.mp hx with ⟨word, _, hxw⟩
    exact breakLongWord_length_le width hw word x hxw
  unfold textwrap_wrap at hl
  cases hcase : (pythonWords text).flatMap (breakLongWord width) with
  | nil => rw [hcase] at hl; simp at hl
  | cons w0 rest =>
    rw [hcase] at hl
    refine fillLines_length_le width rest w0 ?_ ?_ l hl
    · exact hpieces w0 (hcase ▸ List.mem_cons_self _ _)
    · intro x hx
      exact hpieces x (hcase ▸ List.mem_cons_of_mem _ hx)

/-- With no `Paragraph` failure, `addWrapped` turns every line into a
paragraph flowable and reports no exception. -/
theorem addWrapped_ok (env : Env) (h : ∀ l, env.paragraphRaises l = false) :
    ∀ ls, addWrapped env ls = (ls.map Flowable.para, false)
  | [] => rfl
  | line :: rest => by
    simp only [addWrapped, h line, Bool.false_eq_true, if_false,
      addWrapped_ok env h rest, List.map_cons]

/-- With no `Paragraph` failure, the paragraph loop renders exactly the
per-paragraph layout of each split segment, in order. -/
theorem addLines_ok (env : Env) (h : ∀ l, env.paragraphRaises l = false) :
    ∀ ls, addLines env ls = (ls.flatMap layoutParagraph, false)
  | [] => rfl
  | para :: rest => by
    simp only [addLines, layoutParagraph, List.flatMap_cons,
      addWrapped_ok env h, addLines_ok env h rest, h para, Bool.false_eq_true, if_false]
    by_cases hst : stripTruthy para
    · simp only [hst, if_true]
      by_cases hlen : 100 < para.length
      · simp [hlen]
      · simp [hlen]
    · simp [hst]

/-- Canonical path the handler saves the upload to. -/
def savedPath (env : Env) (uploaded_file : UploadedFile) : String :=
  os_path_join UPLOAD_FOLDER (env.secure_filename uploaded_file.filename)

/-- On a request that passes all three validations, with a successful save,
extraction and model call, the handler body returns the chosen output stage
and performs exactly the save, the extraction read and the model call. -/
theorem translateBody_happy (env : Env) (req : Request) (uploaded_file : UploadedFile)
    (target_language text0 translated : String) (send : Chat)
    (hf : req.file = some uploaded_file)
    (hn : uploaded_file.filename ≠ "")
    (hl : req.language = some target_language)
    (hl2 : target_language ≠ "")
    (hsave : env.saveResult = none)
    (hx : extract_text (Fs.write env.fs0 (savedPath env uploaded_file) uploaded_file.data)
        (savedPath env uploaded_file) = Except.ok text0)
    (hchat : env.chat = some send)
    (hsend : send (promptFor text0 target_language) = Except.ok translated) :
    translateBody env req =
      (Except.ok (if req.format.getD "pdf" = "txt"
          then txtStage env translated target_language
          else pdfStage env translated target_language),
        [Event.save (savedPath env uploaded_file) uploaded_file.data,
         Event.extract (savedPath env uploaded_file),
         Event.modelCall (promptFor text0 target_language)]) := by
  unfold translateBody
  rw [hf, hl, hsave]
  simp only [savedPath] at hx
  simp only [if_neg hn, if_neg hl2, hx, translate_text_ev, hchat, hsend, savedPath]
  by_cases hfmt : req.format.getD "pdf" = "txt"
  · simp [hfmt]
  · simp [hfmt]

/-- When the handler body raises, the boundary handler wraps the message. -/
theorem translate_of_body_error (env : Env) (req : Request) (e : String) (ev : List Event)
    (h : translateBody env req = (Except.error e, ev)) :
    translate env req = ({ status := 500, body := Body.message ("Error: " ++ e) }, ev) := by
  unfold translate
  rw [h]

/-- With no chat handle, every request that passes the validations makes the
handler body raise: at the save, at extraction, or at `translate_text`. -/
theorem translateBody_chat_none (env : Env) (req : Request) (uploaded_file : UploadedFile)
    (lang : String)
    (hchat : env.chat = none)
    (hf : req.file = some uploaded_file)
    (hn : uploaded_file.filename ≠ "")
    (hl : req.language = some lang)
    (hl2 : lang ≠ "") :
    ∃ e ev, translateBody env req = (Except.error e, ev) := by
  unfold translateBody
  rw [hf, hl]
  simp only [if_neg hn, if_neg hl2, translate_text_ev, hchat]
  cases hs : env.saveResult with
  | some msg => exact ⟨msg, [], rfl⟩
  | none =>
    cases hx : extract_text
        (Fs.write env.fs0 (os_path_join UPLOAD_FOLDER (env.secure_filename uploaded_file.filename))
          uploaded_file.data)
        (os_path_join UPLOAD_FOLDER (env.secure_filename uploaded_file.filename)) with
    | error e => exact ⟨e, _, rfl⟩
    | ok t => exact ⟨"Gemini not initialized", _, rfl⟩

/-- The missing-file message can never coincide with the unsupported-type
message, whatever the path. -/
theorem noSuchFile_ne_unsupported (p : String) :
    ("No such file or directory: " ++ p) ≠ "Unsupported file type" := by
  intro h
  have hlen := congrArg String.length h
  rw [String.length_append] at hlen
  have h1 : ("No such file or directory: " : String).length = 27 := rfl
  have h2 : ("Unsupported file type" : String).length = 21 := rfl
  omega

/-- The PyMuPDF open-failure message can never coincide with the
unsupported-type message, whatever the path. -/
theorem cannotOpen_ne_unsupported (p : String) :
    ("cannot open document: " ++ p) ≠ "Unsupported file type" := by
  intro h
  have hlen := congrArg String.length h
  rw [String.length_append] at hlen
  have h1 : ("cannot open document: " : String).length = 22 := rfl
  have h2 : ("Unsupported file type" : String).length = 21 := rfl
  omega

/-- No path ends in both `".txt"` and `".pdf"`. -/
theorem pyEndswith_txt_pdf (p : String) :
    pyEndswith p ".txt" = true → pyEndswith p ".pdf" = true → False := by
  intro h1 h2
  unfold pyEndswith at h1 h2
  rw [Bool.and_eq_true] at h1 h2
  have e1 := eq_of_beq h1.2
  have e2 := eq_of_beq h2.2
  rw [show (".txt" : String).data.length = 4 from rfl] at e1
  rw [show (".pdf" : String).data.length = 4 from rfl] at e2
  rw [e1] at e2
  exact absurd e2 (by decide)

/-- Status of the PDF branch is always 200 or 500. -/
theorem pdfStage_status (env : Env) (translated target_language : String) :
    (pdfStage env translated target_language).status = 200 ∨
      (pdfStage env translated target_language).status = 500 := by
  unfold pdfStage
  cases TranslatedPDF.save env
      (TranslatedPDF.add_text_block env (TranslatedPDF.init "translated_output.pdf")
        translated) with
  | some c => left; rfl
  | none =>
    by_cases h : create_text_file env translated "translated_output.txt" = true
    · left; simp [h]
    · right; simp [h]

/-! ## Claim theorems -/

/-- C1: for every PDF-format request whose translation step succeeds, a
`doc.build` failure degrades the output to the generic placeholder PDF, and a
total PDF failure (placeholder canvas failing too, so `send_file` finds no
PDF) degrades it further to a text file containing the translated text. -/
theorem claim_c1_pdf_fallback_chain (env : Env) (req : Request)
    (uploaded_file : UploadedFile) (target_language text0 translated : String) (send : Chat)
    (hf : req.file = some uploaded_file)
    (hn : uploaded_file.filename ≠ "")
    (hl : req.language = some target_language)
    (hl2 : target_language ≠ "")
    (hsave : env.saveResult = none)
    (hx : extract_text (Fs.write env.fs0 (savedPath env uploaded_file) uploaded_file.data)
        (savedPath env uploaded_file) = Except.ok text0)
    (hchat : env.chat = some send)
    (hsend : send (promptFor text0 target_language) = Except.ok translated)
    (hfmt : req.format.getD "pdf" ≠ "txt")
    (hbuild : env.buildRaises (TranslatedPDF.add_text_block env
        (TranslatedPDF.init "translated_output.pdf") translated).story = true) :
    (env.canvasRaises = false →
      (translate env req).1 =
        { status := 200
          body := Body.attachment (FileContent.pdf PdfContent.placeholder)
            ("translated_" ++ target_language ++ ".pdf") })
    ∧ (env.canvasRaises = true → env.txtWriteOk = true →
      (translate env req).1 =
        { status := 200
          body := Body.attachment (FileContent.text translated)
            ("translated_" ++ target_language ++ ".txt") }) := by
  have hb := translateBody_happy env req uploaded_file target_language text0 translated send
    hf hn hl hl2 hsave hx hchat hsend
  rw [if_neg hfmt] at hb
  constructor
  · intro hcv
    unfold translate
    rw [hb]
    simp [pdfStage, TranslatedPDF.save, hbuild, hcv]
  · intro hcv hw
    unfold translate
    rw [hb]
    simp [pdfStage, TranslatedPDF.save, hbuild, hcv, create_text_file, hw]

/-- Witness for C1: with `doc.build` failing and the placeholder canvas
working, the concrete request receives the placeholder PDF. -/
theorem claim_c1_witness :
    (translate envBuildFail reqPdf).1 =
      { status := 200
        body := Body.attachment (FileContent.pdf PdfContent.placeholder)
          "translated_French.pdf" } :=
  (claim_c1_pdf_fallback_chain envBuildFail reqPdf ufDoc "French" "hello" "bonjour"
    (fun _p => Except.ok "bonjour") rfl (by decide) rfl (by decide) rfl (by decide)
    rfl rfl (by decide) (by decide)).1 rfl

/-- C2: for every `format=txt` request in which extraction and translation
succeed (and the output write succeeds), the response is a 200 text
attachment whose body is exactly the string the model call returned. -/
theorem claim_c2_txt_verbatim (env : Env) (req : Request)
    (uploaded_file : UploadedFile) (target_language text0 translated : String) (send : Chat)
    (hf : req.file = some uploaded_file)
    (hn : uploaded_file.filename ≠ "")
    (hl : req.language = some target_language)
    (hl2 : target_language ≠ "")
    (hsave : env.saveResult = none)
    (hx : extract_text (Fs.write env.fs0 (savedPath env uploaded_file) uploaded_file.data)
        (savedPath env uploaded_file) = Except.ok text0)
    (hchat : env.chat = some send)
    (hsend : send (promptFor text0 target_language) = Except.ok translated)
    (hfmt : req.format = some "txt")
    (hwrite : env.txtWriteOk = true) :
    (translate env req).1 =
      { status := 200
        body := Body.attachment (FileContent.text translated)
          ("translated_" ++ target_language ++ ".txt") } := by
  have hb := translateBody_happy env req uploaded_file target_language text0 translated send
    hf hn hl hl2 hsave hx hchat hsend
  rw [hfmt] at hb
  simp only [Option.getD_some, if_pos rfl] at hb
  unfold translate
  rw [hb]
  simp [txtStage, create_text_file, hwrite]

/-- Witness for C2 at a concrete request and model reply. -/
theorem claim_c2_witness :
    (translate envHappy reqTxt).1 =
      { status := 200
        body := Body.attachment (FileContent.text "bonjour") "translated_French.txt" } :=
  claim_c2_txt_verbatim envHappy reqTxt ufDoc "French" "hello" "bonjour"
    (fun _p => Except.ok "bonjour") rfl (by decide) rfl (by decide) rfl (by decide)
    rfl rfl rfl rfl

/-- C3: `extract_text` raises the unsupported-type error exactly when the
path ends in neither `".txt"` nor `".pdf"`; on a `".txt"` path it returns the
whole text-mode content of the file, and on a `".pdf"` path the newline-join
of all page texts. -/
theorem claim_c3_extract_dispatch (fs : Fs) (p s : String) (pages : List String) :
    ((extract_text fs p = Except.error "Unsupported file type") ↔
      (pyEndswith p ".txt" = false ∧ pyEndswith p ".pdf" = false))
    ∧ (pyEndswith p ".txt" = true → fs p = some (FileData.txt s) →
        extract_text fs p = Except.ok (universalNewlines s))
    ∧ (pyEndswith p ".pdf" = true → fs p = some (FileData.pdf pages) →
        extract_text fs p = Except.ok (String.intercalate "\n" pages)) := by
  refine ⟨⟨?_, ?_⟩, ?_, ?_⟩
  · intro h
    by_cases h1 : pyEndswith p ".txt" = true
    · exfalso
      unfold extract_text at h
      rw [if_pos h1] at h
      cases hfp : fs p with
      | some d =>
        cases d with
        | txt s2 => rw [hfp] at h; exact absurd h (by simp)
        | pdf pages2 => rw [hfp] at h; exact absurd h (by simp)
        | other => rw [hfp] at h; exact absurd h (by simp)
      | none =>
        rw [hfp] at h
        simp only [Except.error.injEq] at h
        exact noSuchFile_ne_unsupported p h
    · by_cases h2 : pyEndswith p ".pdf" = true
      · exfalso
        unfold extract_text at h
        rw [if_neg (by simp [h1]), if_pos h2] at h
        cases hfp : fs p with
        | some d =>
          cases d with
          | txt s2 =>
            rw [hfp] at h
            simp only [Except.error.injEq] at h
            exact cannotOpen_ne_unsupported p h
          | pdf pages2 => rw [hfp] at h; exact absurd h (by simp)
          | other =>
            rw [hfp] at h
            simp only [Except.error.injEq] at h
            exact cannotOpen_ne_unsupported p h
        | none =>
          rw [hfp] at h
          simp only [Except.error.injEq] at h
          exact noSuchFile_ne_unsupported p h
      · exact ⟨by simp [h1], by simp [h2]⟩
  · intro h
    unfold extract_text
    rw [if_neg (by simp [h.1]), if_neg (by simp [h.2])]
  · intro h1 hfp
    unfold extract_text
    rw [if_pos h1, hfp]
  · intro h2 hfp
    have h1 : ¬(pyEndswith p ".txt" = true) := by
      intro h1
      exact pyEndswith_txt_pdf p h1 h2
    unfold extract_text
    rw [if_neg (by simp [h1]), if_pos h2, hfp]

/-- Witness for C3: a `.txt` path returns its whole content. -/
theorem claim_c3_witness :
    extract_text (Fs.write fsEmpty "uploads/a.txt" (FileData.txt "hi")) "uploads/a.txt"
      = Except.ok "hi" := by
  have h := (claim_c3_extract_dispatch
    (Fs.write fsEmpty "uploads/a.txt" (FileData.txt "hi")) "uploads/a.txt" "hi" []).2.1
    (by decide) (by decide)
  rw [h]
  decide

/-- C4 counterexample: the round trip is not the identity, because Python's
text-mode read decodes universal newlines: writing `"line1\rline2"` to a
`.txt` file and extracting it returns `"line1\nline2"`. -/
theorem claim_c4_counterexample :
    extract_text (Fs.write fsEmpty "uploads/a.txt" (FileData.txt "line1\rline2")) "uploads/a.txt"
        = Except.ok "line1\nline2"
    ∧ extract_text (Fs.write fsEmpty "uploads/a.txt" (FileData.txt "line1\rline2")) "uploads/a.txt"
        ≠ Except.ok "line1\rline2" := by
  exact ⟨by decide, by decide⟩

/-- C4 (amended): for every string without a carriage return, writing it to a
`.txt` file and extracting that file returns the string unchanged. -/
theorem claim_c4_roundtrip (fs : Fs) (p s : String)
    (hp : pyEndswith p ".txt" = true) (hs : '\r' ∉ s.data) :
    extract_text (Fs.write fs p (FileData.txt s)) p = Except.ok s := by
  unfold extract_text
  rw [if_pos hp]
  simp [Fs.write, universalNewlines_of_no_cr s hs]

/-- Witness for the amended C4 at a concrete file. -/
theorem claim_c4_witness :
    extract_text (Fs.write fsEmpty "uploads/b.txt" (FileData.txt "hello")) "uploads/b.txt"
      = Except.ok "hello" :=
  claim_c4_roundtrip fsEmpty "uploads/b.txt" "hello" (by decide) (by decide)

/-- C5: a request carrying a file with a non-empty filename but no non-empty
`language` field gets a 400 response, with no save, extraction or model call
performed (the event list is empty), under every environment. -/
theorem claim_c5_missing_language (env : Env) (req : Request) (uploaded_file : UploadedFile)
    (hf : req.file = some uploaded_file)
    (hn : uploaded_file.filename ≠ "")
    (hl : req.language = none ∨ req.language = some "") :
    translate env req =
      ({ status := 400, body := Body.message "No target language specified" }, []) := by
  unfold translate translateBody
  rw [hf]
  rcases hl with hl | hl
  · rw [hl]
    simp [if_neg hn]
  · rw [hl]
    simp [if_neg hn]

/-- Witness for C5 at a concrete request with the `language` field absent. -/
theorem claim_c5_witness :
    translate envHappy reqNoLang =
      ({ status := 400, body := Body.message "No target language specified" }, []) :=
  claim_c5_missing_language envHappy reqNoLang ufDoc rfl (by decide) (Or.inl rfl)

/-- C6: with the process-level chat handle `None`, `translate_text` raises on
every input, and every request passing the input validations ends in a 500
response. -/
theorem claim_c6_chat_none (text target_language : String) (env : Env) (req : Request)
    (uploaded_file : UploadedFile) (lang : String)
    (hchat : env.chat = none)
    (hf : req.file = some uploaded_file)
    (hn : uploaded_file.filename ≠ "")
    (hl : req.language = some lang)
    (hl2 : lang ≠ "") :
    translate_text none text target_language = Except.error "Gemini not initialized"
    ∧ (translate env req).1.status = 500 := by
  refine ⟨rfl, ?_⟩
  obtain ⟨e, ev, h⟩ := translateBody_chat_none env req uploaded_file lang hchat hf hn hl hl2
  rw [translate_of_body_error env req e ev h]

/-- Witness for C6 at a concrete request. -/
theorem claim_c6_witness :
    translate_text none "abc" "German" = Except.error "Gemini not initialized"
    ∧ (translate envNoChat reqPdf).1.status = 500 :=
  claim_c6_chat_none "abc" "German" envNoChat reqPdf ufDoc "French" rfl rfl (by decide)
    rfl (by decide)

/-- C7: whenever the handler body raises an exception, the boundary `except`
converts it into a 500 response whose body is `"Error: "` followed by the
exception's message, so the message is contained in the body and no exception
escapes the handler. -/
theorem claim_c7_boundary_catch (env : Env) (req : Request) (e : String) (ev : List Event)
    (h : translateBody env req = (Except.error e, ev)) :
    translate env req = ({ status := 500, body := Body.message ("Error: " ++ e) }, ev) :=
  translate_of_body_error env req e ev h

/-- Witness for C7: the uncaught `RuntimeError` of `translate_text` surfaces
as a 500 response carrying its message. -/
theorem claim_c7_witness :
    translate envNoChat reqPdf =
      ({ status := 500, body := Body.message "Error: Gemini not initialized" },
        [Event.save "uploads/doc.txt" (FileData.txt "hello"),
         Event.extract "uploads/doc.txt"]) :=
  claim_c7_boundary_catch envNoChat reqPdf "Gemini not initialized"
    [Event.save "uploads/doc.txt" (FileData.txt "hello"), Event.extract "uploads/doc.txt"]
    (by decide)

/-- C8: with no `Paragraph` failure, `add_text_block` appends exactly the
per-paragraph layout of the text split on newlines; a non-blank paragraph
longer than 100 characters is rendered as its `textwrap.wrap(_, 80)` lines,
each wrapped line has at most 80 characters, and each becomes a paragraph
flowable of the document. -/
theorem claim_c8_layout (env : Env) (pdf0 : TranslatedPDF) (text para line : String)
    (hok : ∀ l, env.paragraphRaises l = false)
    (hmem : para ∈ pySplitChar text '\n')
    (hnb : stripTruthy para = true)
    (hlong : 100 < para.length)
    (hline : line ∈ textwrap_wrap para 80) :
    (TranslatedPDF.add_text_block env pdf0 text).story
        = pdf0.story ++ (pySplitChar text '\n').flatMap layoutParagraph
    ∧ layoutParagraph para = (textwrap_wrap para 80).map Flowable.para
    ∧ Flowable.para line ∈ (TranslatedPDF.add_text_block env pdf0 text).story
    ∧ line.length ≤ 80 := by
  have hstory : (TranslatedPDF.add_text_block env pdf0 text).story
      = pdf0.story ++ (pySplitChar text '\n').flatMap layoutParagraph := by
    simp only [TranslatedPDF.add_text_block, addLines_ok env hok]
  have hlp : layoutParagraph para = (textwrap_wrap para 80).map Flowable.para := by
    unfold layoutParagraph
    simp [hnb, hlong]
  refine ⟨hstory, hlp, ?_, textwrap_wrap_length_le para 80 (by omega) line hline⟩
  rw [hstory]
  refine List.mem_append_right _ ?_
  refine List.mem_flatMap.mpr ⟨para, hmem, ?_⟩
  rw [hlp]
  exact List.mem_map_of_mem _ hline

/-- A sample paragraph of 101 identical characters. -/
def longPara : String := String.mk (List.replicate 101 'a')

/-- A sample text with a short and a long paragraph. -/
def sampleText : String := "hello\n" ++ longPara

/-- Witness for C8: the 80-character first wrapped line of the long sample
paragraph is a paragraph flowable of the built document, within the width. -/
theorem claim_c8_witness :
    Flowable.para (String.mk (List.replicate 80 'a')) ∈
      (TranslatedPDF.add_text_block envHappy (TranslatedPDF.init "translated_output.pdf")
        sampleText).story
    ∧ (String.mk (List.replicate 80 'a')).length ≤ 80 := by
  have h := claim_c8_layout envHappy (TranslatedPDF.init "translated_output.pdf")
    sampleText longPara (String.mk (List.replicate 80 'a'))
    (fun _l => rfl) (by decide) (by decide) (by decide) (by decide)
  exact ⟨h.2.2.1, h.2.2.2⟩

/-- C9: for every request that passes validation and reaches the output step,
any `format` other than exactly `"txt"` (absent, `"pdf"`, or invalid) takes
the PDF output path, and the outcome is never a 4xx validation rejection. -/
theorem claim_c9_format_default (env : Env) (req : Request)
    (uploaded_file : UploadedFile) (target_language text0 translated : String) (send : Chat)
    (hf : req.file = some uploaded_file)
    (hn : uploaded_file.filename ≠ "")
    (hl : req.language = some target_language)
    (hl2 : target_language ≠ "")
    (hsave : env.saveResult = none)
    (hx : extract_text (Fs.write env.fs0 (savedPath env uploaded_file) uploaded_file.data)
        (savedPath env uploaded_file) = Except.ok text0)
    (hchat : env.chat = some send)
    (hsend : send (promptFor text0 target_language) = Except.ok translated)
    (hfmt : req.format.getD "pdf" ≠ "txt") :
    (translate env req).1 = pdfStage env translated target_language
    ∧ ((translate env req).1.status = 200 ∨ (translate env req).1.status = 500) := by
  have hb := translateBody_happy env req uploaded_file target_language text0 translated send
    hf hn hl hl2 hsave hx hchat hsend
  rw [if_neg hfmt] at hb
  have ht : (translate env req).1 = pdfStage env translated target_language := by
    unfold translate
    rw [hb]
  rw [ht]
  exact ⟨rfl, pdfStage_status env translated target_language⟩

/-- Witness for C9: a request with no `format` field takes the PDF path. -/
theorem claim_c9_witness :
    (translate envHappy reqPdf).1 = pdfStage envHappy "bonjour" "French"
    ∧ ((translate envHappy reqPdf).1.status = 200 ∨
        (translate envHappy reqPdf).1.status = 500) :=
  claim_c9_format_default envHappy reqPdf ufDoc "French" "hello" "bonjour"
    (fun _p => Except.ok "bonjour") rfl (by decide) rfl (by decide) rfl (by decide)
    rfl rfl (by decide)

/-- C10: `add_text_block` and `save` are total (every internal failure is
replaced by the fallback paragraph or the fallback PDF); whenever `save`
leaves a PDF on disk the handler's PDF branch sends exactly that file with a
200, and the only way no PDF exists for `send_file` is that `doc.build` and
the placeholder canvas both failed. -/
theorem claim_c10_no_propagation (env : Env) (translated target_language : String)
    (c : PdfContent) :
    (TranslatedPDF.save env (TranslatedPDF.add_text_block env
        (TranslatedPDF.init "translated_output.pdf") translated) = some c →
      pdfStage env translated target_language =
        { status := 200
          body := Body.attachment (FileContent.pdf c)
            ("translated_" ++ target_language ++ ".pdf") })
    ∧ (TranslatedPDF.save env (TranslatedPDF.add_text_block env
        (TranslatedPDF.init "translated_output.pdf") translated) = none →
      env.buildRaises (TranslatedPDF.add_text_block env
          (TranslatedPDF.init "translated_output.pdf") translated).story = true
        ∧ env.canvasRaises = true) := by
  constructor
  · intro h
    unfold pdfStage
    rw [h]
  · intro h
    unfold TranslatedPDF.save at h
    by_cases hb : env.buildRaises (TranslatedPDF.add_text_block env
        (TranslatedPDF.init "translated_output.pdf") translated).story = true
    · refine ⟨hb, ?_⟩
      rw [if_pos hb] at h
      by_cases hc : env.canvasRaises = true
      · exact hc
      · rw [if_neg hc] at h
        exact absurd h (by simp)
    · rw [if_neg hb] at h
      exact absurd h (by simp)

/-- Witness for C10: in the all-success environment, the built document is
what the handler sends. -/
theorem claim_c10_witness :
    pdfStage envHappy "hello" "French" =
      { status := 200
        body := Body.attachment (FileContent.pdf (PdfContent.built [Flowable.para "hello"]))
          "translated_French.pdf" } :=
  (claim_c10_no_propagation envHappy "hello" "French"
    (PdfContent.built [Flowable.para "hello"])).1 (by decide)

end App
